import Mathlib

/-!
Verification of the GHG sustainability application core against its
natural-language specification.

The development shallowly embeds the two core subsystems:

* `core/formulas.py` (`FormulaEngine`): Python `decimal.Decimal` values are
  modelled exactly: a finite decimal is an exact rational, and the special
  values `NaN`, `Infinity`, `-Infinity` are explicit constructors.  The
  default decimal context traps `InvalidOperation`, so an invalid operation
  (`0 × Infinity`, quantizing an infinity, parsing a non-numeric string)
  is modelled as `Except.error`; the surrounding `try/except` in the Python
  code re-raises any such exception as `ValueError`, which is exactly the
  `Except.error` outcome of the embedded function.

* `core/workflow.py` (`WorkflowManager`) and `core/agent.py` (`GHGAppAgent`):
  the SQLAlchemy session is modelled as an explicit database state holding
  one project together with its audit-log, review, project-data and
  calculation rows; raising an exception before any mutation is modelled by
  returning the unchanged state with an `Except.error` value.

Python `float` inputs that reach the decimal engine through
`Decimal(str(x))` are modelled by `PyNum`: every finite float converts
exactly to the rational it prints as, and non-numeric arguments (whose
`str` is not a valid decimal literal) are a separate constructor.
Timestamps (`datetime.utcnow()`) are modelled by an abstract clock value
passed explicitly.
-/

namespace GHG

/-- Deciding equality of `Except` values componentwise; used so that the
concrete evaluations in witnesses can be discharged by `decide`. -/
instance {ε α : Type} [DecidableEq ε] [DecidableEq α] : DecidableEq (Except ε α) := fun a b =>
  match a, b with
  | .error x, .error y =>
    if h : x = y then .isTrue (by rw [h]) else .isFalse (by simp [h])
  | .error _, .ok _ => .isFalse (by simp)
  | .ok _, .error _ => .isFalse (by simp)
  | .ok x, .ok y =>
    if h : x = y then .isTrue (by rw [h]) else .isFalse (by simp [h])

/-- A Python `decimal.Decimal` value: an exact finite value, an infinity of
either sign, or a (quiet) NaN. -/
inductive Dec where
  | fin (q : ℚ)
  | pinf
  | ninf
  | nan
deriving DecidableEq, Repr

/-- An argument passed to `FormulaEngine.calculate_emissions` and fed to
`Decimal(str(x))`: a finite number (exact), a non-finite float, or a value
whose string form is not a valid decimal literal. -/
inductive PyNum where
  | num (q : ℚ)
  | pinf
  | ninf
  | nan
  | nonNumeric
deriving DecidableEq, Repr

/-- Embeds `Decimal(str(x))`: finite numbers and the special float values
parse to the corresponding decimal; anything else signals
`InvalidOperation` (trapped, hence an exception). -/
def toDecimal : PyNum → Except String Dec
  | .num q => .ok (.fin q)
  | .pinf => .ok .pinf
  | .ninf => .ok .ninf
  | .nan => .ok .nan
  | .nonNumeric => .error "InvalidOperation: invalid decimal literal"

/-! The default decimal context: precision 28, rounding
`ROUND_HALF_EVEN`, traps on `InvalidOperation`.  An arithmetic result is
the exact value rounded to at most 28 significant decimal digits; a
`quantize` whose result coefficient would be longer than 28 digits
signals the trapped `InvalidOperation`.  The helpers below implement
this over exact rationals, with all integer subcomputations written as
fuel-based structural recursions so that concrete instances evaluate. -/

/-- Decimal digit count of a natural number (`0` has no digits);
fuel-based structural recursion. -/
def digitsAux : ℕ → ℕ → ℕ
  | 0, _ => 0
  | fuel + 1, n => if n = 0 then 0 else digitsAux fuel (n / 10) + 1

/-- Decimal digit count of a natural number. -/
def numDigits (n : ℕ) : ℕ := digitsAux n n

/-- Divide out every factor `p` of `n` (fuel-based). -/
def stripFac : ℕ → ℕ → ℕ → ℕ
  | 0, _, n => n
  | fuel + 1, p, n =>
    if 2 ≤ p ∧ n % p = 0 ∧ n ≠ 0 then stripFac fuel p (n / p) else n

/-- Multiplicity of the factor `p` in `n` (fuel-based). -/
def countFacAux : ℕ → ℕ → ℕ → ℕ
  | 0, _, _ => 0
  | fuel + 1, p, n =>
    if 2 ≤ p ∧ n % p = 0 ∧ n ≠ 0 then countFacAux fuel p (n / p) + 1
    else 0

/-- Whether the rational `n / d` (in lowest terms) is a decimal number of
at most 28 significant digits: the denominator must be of the form
`2^a * 5^b`, and the minimal coefficient (trailing zeros stripped) must
have at most 28 digits. -/
def fits28nd (n : ℤ) (d : ℕ) : Bool :=
  if n = 0 then true
  else
    let a := countFacAux d 2 d
    let b := countFacAux d 5 d
    if 2 ^ a * 5 ^ b = d then
      let m := n.natAbs * 2 ^ (max a b - a) * 5 ^ (max a b - b)
      numDigits (stripFac m 10 m) ≤ 28
    else false

/-- Whether a rational is exactly representable as a decimal of at most
28 significant digits (so that the context rounding leaves it
unchanged). -/
def fits28 (q : ℚ) : Bool := fits28nd q.num q.den

/-- The decimal exponent `⌊log10 |q|⌋` of a non-zero rational, computed
from digit counts of the numerator and denominator. -/
def decExp (q : ℚ) : ℤ :=
  let n := q.num.natAbs
  let d := q.den
  let c : ℤ := (numDigits n : ℤ) - (numDigits d : ℤ)
  if 0 ≤ c then (if 10 ^ c.toNat * d ≤ n then c else c - 1)
  else (if d ≤ n * 10 ^ (-c).toNat then c else c - 1)

/-- Round a rational to the nearest integer, ties to even
(`ROUND_HALF_EVEN`, the default context rounding). -/
def rhe (q : ℚ) : ℤ :=
  if q - (⌊q⌋ : ℚ) < 1 / 2 then ⌊q⌋
  else if 1 / 2 < q - (⌊q⌋ : ℚ) then ⌊q⌋ + 1
  else if ⌊q⌋ % 2 = 0 then ⌊q⌋ else ⌊q⌋ + 1

/-- Round a rational to at most 28 significant decimal digits, half to
even: the context rounding applied by every decimal arithmetic
operation.  Values already representable within the precision are
unchanged. -/
def roundSig28 (q : ℚ) : ℚ :=
  if fits28 q then q
  else
    let e := decExp q
    let m := rhe (|q| * (10 : ℚ) ^ (27 - e))
    (if q < 0 then -1 else 1) * (m : ℚ) * (10 : ℚ) ^ (e - 27)

/-- Decimal multiplication under the default context: the exact product
rounded to the 28-digit precision on finite operands, NaN-absorbing,
with `0 × Infinity` signalling the trapped `InvalidOperation`. -/
def Dec.mul : Dec → Dec → Except String Dec
  | .nan, .nan => .ok .nan
  | .nan, .fin _ => .ok .nan
  | .nan, .pinf => .ok .nan
  | .nan, .ninf => .ok .nan
  | .fin _, .nan => .ok .nan
  | .pinf, .nan => .ok .nan
  | .ninf, .nan => .ok .nan
  | .fin a, .fin b => .ok (.fin (roundSig28 (a * b)))
  | .pinf, .fin b =>
    if b = 0 then .error "InvalidOperation: 0 * INF"
    else if 0 < b then .ok .pinf else .ok .ninf
  | .ninf, .fin b =>
    if b = 0 then .error "InvalidOperation: 0 * INF"
    else if 0 < b then .ok .ninf else .ok .pinf
  | .fin a, .pinf =>
    if a = 0 then .error "InvalidOperation: 0 * INF"
    else if 0 < a then .ok .pinf else .ok .ninf
  | .fin a, .ninf =>
    if a = 0 then .error "InvalidOperation: 0 * INF"
    else if 0 < a then .ok .ninf else .ok .pinf
  | .pinf, .pinf => .ok .pinf
  | .pinf, .ninf => .ok .ninf
  | .ninf, .pinf => .ok .ninf
  | .ninf, .ninf => .ok .pinf

/-- The value of the left-associated product of four finite decimals
under the context rounding (what the multiplication chain of
`calculate_emissions` computes). -/
def mulChain (a ef g uc : ℚ) : ℚ :=
  roundSig28 (roundSig28 (roundSig28 (a * ef) * g) * uc)

/-- Division of a decimal by the exact constant `1000`.  This is exact
(never rounds, never signals): the divisor only shifts the exponent, and
every dividend reaching it in the pipeline carries at most 28
significant digits, so the exact quotient is representable. -/
def Dec.div1000 : Dec → Dec
  | .fin q => .fin (q / 1000)
  | .pinf => .pinf
  | .ninf => .ninf
  | .nan => .nan

/-- The coefficient of a rational rounded to 4 decimal places with
Python's `ROUND_HALF_UP` (ties away from zero): the integer `n` such
that the rounded value is `n / 10000`. -/
def rhu4Int (q : ℚ) : ℤ :=
  if 0 ≤ q then ⌊q * 10000 + 1 / 2⌋ else -⌊-q * 10000 + 1 / 2⌋

/-- Rounding an exact rational to 4 decimal places with Python's
`ROUND_HALF_UP` (ties away from zero). -/
def roundHalfUp4 (q : ℚ) : ℚ := (rhu4Int q : ℚ) / 10000

/-- Embeds `x.quantize(Decimal('0.0001'), rounding=ROUND_HALF_UP)` on a
finite decimal: round half-up to 4 decimal places, signalling the
trapped `InvalidOperation` when the result coefficient is longer than
the context's 28 digits (e.g. for values of `10^24` and above). -/
def quantize4Q (q : ℚ) : Except String ℚ :=
  if (rhu4Int q).natAbs < 10 ^ 28 then .ok (roundHalfUp4 q)
  else .error "InvalidOperation: quantize result exceeds 28 digits"

/-- Embeds `x.quantize(Decimal('0.0001'), rounding=ROUND_HALF_UP)`:
finite values go through `quantize4Q` (which signals when the rounded
coefficient exceeds the precision); quantizing an infinity signals the
trapped `InvalidOperation`; a NaN operand propagates quietly. -/
def Dec.quantize4 : Dec → Except String Dec
  | .fin q =>
    match quantize4Q q with
    | .ok r => .ok (.fin r)
    | .error m => .error m
  | .pinf => .error "InvalidOperation: quantize with INF"
  | .ninf => .error "InvalidOperation: quantize with INF"
  | .nan => .ok .nan

/-- The result dictionary of `FormulaEngine.calculate_emissions`.  The two
presentation-only format strings (`"formula"`, `"calculation"`) are
constant text respectively a float-repr rendering and are not modelled;
the `float(...)` conversions of the returned entries are modelled as the
exact decimal values. -/
structure CalcResult where
  activity_data : Dec
  emission_factor : Dec
  gwp : Dec
  unit_conversion : Dec
  emissions_kg : Dec
  emissions_tco2e : Dec
deriving DecidableEq, Repr

namespace FormulaEngine

/-- Embeds `FormulaEngine.calculate_emissions` of `core/formulas.py`:
convert the four arguments via `Decimal(str(x))`, multiply them left to
right, divide by `1000`, quantize to 4 decimal places half-up, and return
the breakdown; any decimal exception along the way is re-raised as
`ValueError` (the `error` case). -/
def calculate_emissions (activity_data emission_factor : PyNum)
    (gwp unit_conversion : PyNum) : Except String CalcResult := do
  let ad ← toDecimal activity_data
  let ef ← toDecimal emission_factor
  let g ← toDecimal gwp
  let uc ← toDecimal unit_conversion
  let p1 ← ad.mul ef
  let p2 ← p1.mul g
  let emissions_kg ← p2.mul uc
  let emissions_tonnes := emissions_kg.div1000
  let emissions_tonnes ← emissions_tonnes.quantize4
  return { activity_data := ad, emission_factor := ef, gwp := g,
           unit_conversion := uc, emissions_kg := emissions_kg,
           emissions_tco2e := emissions_tonnes }

/-- One element of the list handed to `FormulaEngine.aggregate_emissions`:
a dict read with `calc.get("scope", "Unknown")` and
`calc.get("emissions_tco2e", 0)`, so both keys may be absent. -/
structure CalcRecord where
  scope : Option String
  emissions_tco2e : Option ℚ
deriving DecidableEq, Repr

/-- Embeds `calc.get("scope", "Unknown")`. -/
def CalcRecord.scopeD (c : CalcRecord) : String := c.scope.getD "Unknown"

/-- Embeds `Decimal(str(calc.get("emissions_tco2e", 0)))` for a numeric
entry. -/
def CalcRecord.tco2eD (c : CalcRecord) : ℚ := c.emissions_tco2e.getD 0

/-- The totals dictionary of `aggregate_emissions`, after the final
rounding, together with `breakdown_count`. -/
structure AggregateResult where
  scope1 : ℚ
  scope2 : ℚ
  scope3 : ℚ
  total : ℚ
  breakdown_count : ℕ
deriving DecidableEq, Repr

/-- One iteration of the loop in `aggregate_emissions`: add the record's
emissions to its scope's bucket when the scope is a key of the totals
dictionary (whose keys are the three scopes and `"Total"`), and always to
the `"Total"` bucket.  Each `+=` is a decimal addition, i.e. rounded to
the context's 28 significant digits. -/
def aggStep (t : ℚ × ℚ × ℚ × ℚ) (c : CalcRecord) : ℚ × ℚ × ℚ × ℚ :=
  let e := c.tco2eD
  let s := c.scopeD
  let t :=
    if s = "Scope 1" then (roundSig28 (t.1 + e), t.2.1, t.2.2.1, t.2.2.2)
    else if s = "Scope 2" then
      (t.1, roundSig28 (t.2.1 + e), t.2.2.1, t.2.2.2)
    else if s = "Scope 3" then
      (t.1, t.2.1, roundSig28 (t.2.2.1 + e), t.2.2.2)
    else if s = "Total" then
      (t.1, t.2.1, t.2.2.1, roundSig28 (t.2.2.2 + e))
    else t
  (t.1, t.2.1, t.2.2.1, roundSig28 (t.2.2.2 + e))

/-- The same loop iteration with exact (unrounded) additions: the ideal
the rounded step coincides with while no total outgrows the 28-digit
precision.  Used to state and prove the restricted order-independence
of aggregation. -/
def aggStepExact (t : ℚ × ℚ × ℚ × ℚ) (c : CalcRecord) : ℚ × ℚ × ℚ × ℚ :=
  let e := c.tco2eD
  let s := c.scopeD
  let t :=
    if s = "Scope 1" then (t.1 + e, t.2.1, t.2.2.1, t.2.2.2)
    else if s = "Scope 2" then (t.1, t.2.1 + e, t.2.2.1, t.2.2.2)
    else if s = "Scope 3" then (t.1, t.2.1, t.2.2.1 + e, t.2.2.2)
    else if s = "Total" then (t.1, t.2.1, t.2.2.1, t.2.2.2 + e)
    else t
  (t.1, t.2.1, t.2.2.1, t.2.2.2 + e)

/-- Checks that every decimal addition `aggStep` performs on state `t`
for record `c` is exact (unchanged by the context rounding). -/
def aggStepOk (t : ℚ × ℚ × ℚ × ℚ) (c : CalcRecord) : Bool :=
  let e := c.tco2eD
  let s := c.scopeD
  if s = "Scope 1" then fits28 (t.1 + e) && fits28 (t.2.2.2 + e)
  else if s = "Scope 2" then fits28 (t.2.1 + e) && fits28 (t.2.2.2 + e)
  else if s = "Scope 3" then fits28 (t.2.2.1 + e) && fits28 (t.2.2.2 + e)
  else if s = "Total" then
    fits28 (t.2.2.2 + e) && fits28 (t.2.2.2 + e + e)
  else fits28 (t.2.2.2 + e)

/-- Checks that, starting from totals `t`, every addition performed
while folding the list is exact. -/
def aggExact (t : ℚ × ℚ × ℚ × ℚ) : List CalcRecord → Bool
  | [] => true
  | c :: l => aggStepOk t c && aggExact (aggStepExact t c) l

/-- Embeds `FormulaEngine.aggregate_emissions` of `core/formulas.py`:
fold the per-record decimal additions over the list, then quantize each
total to 4 decimal places half-up (in the dictionary's insertion order;
the quantize signals, uncaught, when a total's rounded coefficient
exceeds the precision) and report the number of records. -/
def aggregate_emissions (calculations : List CalcRecord) :
    Except String AggregateResult := do
  let t := calculations.foldl aggStep (0, 0, 0, 0)
  let scope1 ← quantize4Q t.1
  let scope2 ← quantize4Q t.2.1
  let scope3 ← quantize4Q t.2.2.1
  let total ← quantize4Q t.2.2.2
  return { scope1 := scope1, scope2 := scope2, scope3 := scope3,
           total := total, breakdown_count := calculations.length }

end FormulaEngine

/-! Workflow state machine (`core/workflow.py`). -/

/-- Embeds the module-level dict `STATE_TRANSITIONS` of `core/workflow.py`,
read through `STATE_TRANSITIONS.get(current_state, [])`. -/
def STATE_TRANSITIONS (s : String) : List String :=
  if s = "DRAFT" then ["SUBMITTED"]
  else if s = "SUBMITTED" then ["UNDER_CALCULATION", "DRAFT"]
  else if s = "UNDER_CALCULATION" then ["PENDING_REVIEW", "SUBMITTED"]
  else if s = "PENDING_REVIEW" then ["APPROVED", "REJECTED"]
  else if s = "REJECTED" then ["SUBMITTED"]
  else if s = "APPROVED" then ["LOCKED"]
  else if s = "LOCKED" then []
  else []

/-- Embeds the module-level dict `TRANSITION_PERMISSIONS` of
`core/workflow.py`, read through
`TRANSITION_PERMISSIONS.get((current_state, target_state), [])`. -/
def TRANSITION_PERMISSIONS (k : String × String) : List String :=
  if k = ("DRAFT", "SUBMITTED") then ["L1"]
  else if k = ("SUBMITTED", "UNDER_CALCULATION") then ["L2"]
  else if k = ("SUBMITTED", "DRAFT") then ["L1", "L2"]
  else if k = ("UNDER_CALCULATION", "PENDING_REVIEW") then ["L2"]
  else if k = ("UNDER_CALCULATION", "SUBMITTED") then ["L2"]
  else if k = ("PENDING_REVIEW", "APPROVED") then ["L3"]
  else if k = ("PENDING_REVIEW", "REJECTED") then ["L3"]
  else if k = ("REJECTED", "SUBMITTED") then ["L1"]
  else if k = ("APPROVED", "LOCKED") then ["L4"]
  else []

/-- The `projects` row (`models/project.py`) as far as the workflow engine
touches it; float total columns are modelled as exact rationals, datetime
columns as abstract clock values. -/
structure Project where
  id : ℕ
  project_name : String
  organization_name : String
  reporting_year : ℕ
  status : String
  created_by : ℕ
  updated_at : ℕ
  submitted_at : Option ℕ
  calculated_at : Option ℕ
  reviewed_at : Option ℕ
  approved_at : Option ℕ
  locked_at : Option ℕ
  total_scope1 : ℚ
  total_scope2 : ℚ
  total_scope3 : ℚ
  total_emissions : ℚ
deriving DecidableEq, Repr

/-- The `audit_logs` row created by `WorkflowManager.log_transition`. -/
structure AuditLog where
  project_id : ℕ
  action : String
  from_status : Option String
  to_status : String
  user_id : ℕ
  user_role : String
  comments : Option String
  reason_code : Option String
deriving DecidableEq, Repr

namespace WorkflowManager

/-- Embeds `WorkflowManager.can_transition`: check the edge against
`STATE_TRANSITIONS`, then the role against `TRANSITION_PERMISSIONS`;
returns the `(is_allowed, message)` pair. -/
def can_transition (current_state target_state user_role : String) :
    Bool × String :=
  if target_state ∈ STATE_TRANSITIONS current_state then
    if user_role ∈ TRANSITION_PERMISSIONS (current_state, target_state) then
      (true, "Transition allowed")
    else
      (false, "Role " ++ user_role ++
        " does not have permission for this transition")
  else
    (false, "Invalid transition from " ++ current_state ++ " to " ++
      target_state)

/-- Embeds `WorkflowManager.log_transition`: stage one new `AuditLog` row
in the session. -/
def log_transition (project : Project) (action : String)
    (from_status : Option String) (to_status : String) (user_id : ℕ)
    (user_role : String) (comments reason_code : Option String)
    (logs : List AuditLog) : List AuditLog :=
  logs ++ [{ project_id := project.id, action := action,
             from_status := from_status, to_status := to_status,
             user_id := user_id, user_role := user_role,
             comments := comments, reason_code := reason_code }]

/-- Embeds `WorkflowManager.transition`: validate via `can_transition`
(raising `ValueError` with the returned message on failure, before any
mutation), then update the status, `updated_at` and the milestone
timestamp of the target state, stage the audit row and commit.  The
post-commit best-effort email notification has no effect on the data and
is not modelled. -/
def transition (now : ℕ) (project : Project) (logs : List AuditLog)
    (new_status : String) (user_id : ℕ) (user_role : String)
    (comments reason_code : Option String) :
    Except String (Project × List AuditLog) :=
  let current_state := project.status
  let check := can_transition current_state new_status user_role
  if check.1 = false then
    .error check.2
  else
    let old_state := project.status
    let project := { project with status := new_status, updated_at := now }
    let project :=
      if new_status = "SUBMITTED" then
        { project with submitted_at := some now }
      else if new_status = "PENDING_REVIEW" then
        { project with calculated_at := some now }
      else if new_status = "APPROVED" then
        { project with reviewed_at := some now, approved_at := some now }
      else if new_status = "LOCKED" then
        { project with locked_at := some now }
      else project
    let logs := log_transition project new_status (some old_state)
      new_status user_id user_role comments reason_code logs
    .ok (project, logs)

/-- Embeds `WorkflowManager.get_available_transitions`. -/
def get_available_transitions (project_status user_role : String) :
    List String :=
  (STATE_TRANSITIONS project_status).filter fun target_state =>
    (can_transition project_status target_state user_role).1

end WorkflowManager

/-! Lifecycle orchestration (`core/agent.py`). -/

/-- The `GHGAgentError` hierarchy of `core/agent.py` (plus the plain
`ValueError` raised by the workflow engine, which the agent converts). -/
inductive AgentError where
  | validation (msg : String)
  | invalidState (msg : String)
  | notFound (msg : String)
  | database (msg : String)
deriving DecidableEq, Repr

/-- The `reviews` row (`models/review.py`). -/
structure Review where
  project_id : ℕ
  is_approved : Bool
  reason_code_id : Option ℕ
  comments : Option String
  suggestions : Option String
  reviewed_by : ℕ
  reviewed_at : ℕ
deriving DecidableEq, Repr

/-- The `project_data` row (`models/project_data.py`) as far as
`transform_data` reads it. -/
structure ProjectData where
  id : ℕ
  project_id : ℕ
  criteria_id : ℕ
  activity_data : ℚ
deriving DecidableEq, Repr

/-- The `calculations` row (`models/calculation.py`) as persisted by
`transform_data`; the JSON breakdown repeats the listed numeric fields and
is not duplicated here. -/
structure Calculation where
  project_id : ℕ
  criteria_id : ℕ
  project_data_id : ℕ
  activity_data : ℚ
  emission_factor : ℚ
  emission_factor_source : String
  gwp : ℚ
  unit_conversion : ℚ
  emissions_kg : ℚ
  emissions_tco2e : ℚ
  scope : String
  category : String
  calculated_by : ℕ
  calculated_at : ℕ
  notes : Option String
deriving DecidableEq, Repr

/-- The database session state: the one project under discussion together
with its dependent rows.  A Python exception raised before `db.commit()`
leaves the store unchanged, so an erroring operation returns the state it
was given. -/
structure DB where
  project : Project
  audit_logs : List AuditLog
  reviews : List Review
  project_data : List ProjectData
  calculations : List Calculation
deriving DecidableEq, Repr

/-- Python truthiness test `not s` for an `Optional[str]`: `None` and the
empty string are falsy (a blank, non-empty string is truthy). -/
def pyFalsy : Option String → Bool
  | none => true
  | some s => s = ""

/-- The characters Python `str.strip()` removes: the Unicode whitespace
of `str.isspace` (bidirectional classes WS/B/S and category Zs). -/
def pyIsSpace (c : Char) : Bool :=
  [0x09, 0x0A, 0x0B, 0x0C, 0x0D, 0x1C, 0x1D, 0x1E, 0x1F, 0x20, 0x85,
   0xA0, 0x1680, 0x2000, 0x2001, 0x2002, 0x2003, 0x2004, 0x2005, 0x2006,
   0x2007, 0x2008, 0x2009, 0x200A, 0x2028, 0x2029, 0x202F, 0x205F,
   0x3000].contains c.val.toNat

/-- Embeds Python `str.strip()`: drop leading and trailing Unicode
whitespace (written over the character list so that concrete instances
evaluate). -/
def pyStrip (s : String) : String :=
  ⟨((s.data.dropWhile pyIsSpace).reverse.dropWhile pyIsSpace).reverse⟩

/-- Python `s or default` for an `Optional[str]` operand. -/
def pyOrDefault (s : Option String) (default : String) : String :=
  match s with
  | none => default
  | some v => if v = "" then default else v

namespace GHGAppAgent

/-- Embeds `GHGAppAgent.VALID_SCOPES`. -/
def VALID_SCOPES : List String := ["Scope 1", "Scope 2", "Scope 3"]

/-- The attribute names of the mapped `Review` class
(`models/review.py`): its columns and relationship properties.  The
SQLAlchemy declarative constructor accepts exactly these as keyword
arguments and raises `TypeError` for any other. -/
def reviewModelAttrs : List String :=
  ["id", "project_id", "is_approved", "reason_code_id", "comments",
   "suggestions", "reviewed_by", "reviewed_at", "project", "reviewer",
   "reason_code"]

/-- The keyword arguments `create_review` passes to `Review(...)` in
`core/agent.py`. -/
def createReviewKwargs : List String :=
  ["project_id", "reviewer_id", "review_result", "comments", "reason_code",
   "reviewed_at"]

/-- Embeds `GHGAppAgent.create_review`: validate `review_result` and the
rejection reason code, then construct and commit a `Review` row.  The
declarative constructor raises `TypeError` when some keyword argument is
not an attribute of the model; that exception is caught by the generic
handler, the session rolled back, and `DatabaseError` raised. -/
def create_review (now : ℕ) (db : DB) (project_id reviewer_id : ℕ)
    (review_result : String) (comments reason_code : Option String) :
    DB × Except AgentError Unit :=
  if review_result ∉ ["APPROVED", "REJECTED"] then
    (db, .error (.validation ("Invalid review_result: " ++ review_result)))
  else if review_result = "REJECTED" ∧ pyFalsy reason_code then
    (db, .error (.validation "reason_code is required for rejection"))
  else if createReviewKwargs.all (fun k => reviewModelAttrs.contains k) then
    -- Unreachable: `reviewer_id` and `review_result` are not attributes of
    -- the mapped `Review` class, so the constructor check above fails.
    ({ db with reviews := db.reviews ++
        [{ project_id := project_id,
           is_approved := review_result = "APPROVED",
           reason_code_id := none, comments := comments,
           suggestions := none, reviewed_by := reviewer_id,
           reviewed_at := now }] }, .ok ())
  else
    (db, .error (.database "Failed to create review: TypeError"))

/-- Embeds `GHGAppAgent._get_project_or_raise` over the single-project
store: ids are modelled as naturals (the `isinstance` test always
holds), so the source's `project_id <= 0` validation is the `= 0`
test; a missing project raises `ProjectNotFoundError`. -/
def get_project_or_raise (db : DB) (project_id : ℕ) :
    Except AgentError Project :=
  if project_id = 0 then
    .error (.validation ("Invalid project_id: " ++ toString project_id))
  else if db.project.id = project_id then .ok db.project
  else .error (.notFound ("Project " ++ toString project_id ++ " not found"))

/-- Embeds `GHGAppAgent.approve_verification`: fetch the project, create
an `APPROVED` review, then transition to `APPROVED`, converting the
workflow engine's `ValueError` into `InvalidStateError`.  An error leaves
the state reached so far in place. -/
def approve_verification (now : ℕ) (db : DB)
    (project_id verifier_id : ℕ) (verifier_role : String)
    (comments : Option String) : DB × Except AgentError Unit :=
  match get_project_or_raise db project_id with
  | .error e => (db, .error e)
  | .ok project =>
    match create_review now db project_id verifier_id "APPROVED"
        comments none with
    | (db1, .error e) => (db1, .error e)
    | (db1, .ok _) =>
      match WorkflowManager.transition now project db1.audit_logs
          "APPROVED" verifier_id verifier_role
          (some (pyOrDefault comments "Verification approved")) none with
      | .ok (p', logs') =>
        ({ db1 with project := p', audit_logs := logs' }, .ok ())
      | .error m => (db1, .error (.invalidState m))

/-- Embeds `GHGAppAgent.reject_verification`: require non-blank comments
and reason code, fetch the project, create a `REJECTED` review, then
transition to `REJECTED`, converting `ValueError` into
`InvalidStateError`. -/
def reject_verification (now : ℕ) (db : DB)
    (project_id verifier_id : ℕ) (verifier_role : String)
    (reason_code comments : String) : DB × Except AgentError Unit :=
  if pyStrip comments = "" then
    (db, .error (.validation "Comments are required for rejection"))
  else if pyStrip reason_code = "" then
    (db, .error (.validation "Reason code is required for rejection"))
  else
    match get_project_or_raise db project_id with
    | .error e => (db, .error e)
    | .ok project =>
      match create_review now db project_id verifier_id "REJECTED"
          (some comments) (some reason_code) with
      | (db1, .error e) => (db1, .error e)
      | (db1, .ok _) =>
        match WorkflowManager.transition now project db1.audit_logs
            "REJECTED" verifier_id verifier_role (some comments)
            (some reason_code) with
        | .ok (p', logs') =>
          ({ db1 with project := p', audit_logs := logs' }, .ok ())
        | .error m => (db1, .error (.invalidState m))

/-- Embeds `GHGAppAgent.transform_data`: validate the numeric inputs
(`_validate_positive_number` requires a value strictly greater than zero),
the scope, the factor source and category, resolve the project and the
source data row, then compute `emissions_kg` and `emissions_tco2e` and
commit one `Calculation` row.  Python float arithmetic is modelled as
exact rational arithmetic. -/
def transform_data (now : ℕ) (db : DB) (project_id project_data_id : ℕ)
    (emission_factor : ℚ) (emission_factor_source scope category : String)
    (user_id : ℕ) (gwp unit_conversion : ℚ) (notes : Option String) :
    DB × Except AgentError Calculation :=
  if ¬ emission_factor > 0 then
    (db, .error (.validation "emission_factor must be positive"))
  else if ¬ gwp > 0 then
    (db, .error (.validation "gwp must be positive"))
  else if ¬ unit_conversion > 0 then
    (db, .error (.validation "unit_conversion must be positive"))
  else if scope ∉ VALID_SCOPES then
    (db, .error (.validation ("Invalid scope: " ++ scope)))
  else if pyStrip emission_factor_source = "" then
    (db, .error (.validation "emission_factor_source cannot be empty"))
  else if pyStrip category = "" then
    (db, .error (.validation "category cannot be empty"))
  else
    match get_project_or_raise db project_id with
    | .error e => (db, .error e)
    | .ok _ =>
    match db.project_data.find? (fun pd => pd.id = project_data_id) with
    | none =>
      (db, .error (.notFound ("ProjectData " ++ toString project_data_id ++
        " not found")))
    | some pd =>
      if pd.project_id ≠ project_id then
        (db, .error (.validation ("ProjectData does not belong to project " ++
          toString project_id)))
      else
        let emissions_kg :=
          pd.activity_data * emission_factor * gwp * unit_conversion
        let emissions_tco2e := emissions_kg / 1000
        let calculation : Calculation :=
          { project_id := project_id, criteria_id := pd.criteria_id,
            project_data_id := project_data_id,
            activity_data := pd.activity_data,
            emission_factor := emission_factor,
            emission_factor_source := pyStrip emission_factor_source,
            gwp := gwp, unit_conversion := unit_conversion,
            emissions_kg := emissions_kg,
            emissions_tco2e := emissions_tco2e, scope := scope,
            category := pyStrip category, calculated_by := user_id,
            calculated_at := now,
            notes := match notes with
              | none => none
              | some n => if n = "" then none else some (pyStrip n) }
        ({ db with calculations := db.calculations ++ [calculation] },
         .ok calculation)

end GHGAppAgent

/-! Spec-side relations (transcribed from the spec's words, for the
claims that compare the code against the spec's transition table). -/

/-- Authorization relation transcribed from the spec's transition graph:
the nine edges together with the role(s) the spec authorizes on each. -/
def specAllowed (current target role : String) : Prop :=
  (current = "DRAFT" ∧ target = "SUBMITTED" ∧ role = "L1") ∨
  (current = "SUBMITTED" ∧ target = "UNDER_CALCULATION" ∧ role = "L2") ∨
  (current = "SUBMITTED" ∧ target = "DRAFT" ∧ (role = "L1" ∨ role = "L2")) ∨
  (current = "UNDER_CALCULATION" ∧ target = "PENDING_REVIEW" ∧ role = "L2") ∨
  (current = "UNDER_CALCULATION" ∧ target = "SUBMITTED" ∧ role = "L2") ∨
  (current = "PENDING_REVIEW" ∧ target = "APPROVED" ∧ role = "L3") ∨
  (current = "PENDING_REVIEW" ∧ target = "REJECTED" ∧ role = "L3") ∨
  (current = "REJECTED" ∧ target = "SUBMITTED" ∧ role = "L1") ∨
  (current = "APPROVED" ∧ target = "LOCKED" ∧ role = "L4")

/-- The nine edges of the spec's transition graph, as a predicate on the
(current, target) pair. -/
def specEdge (current target : String) : Prop :=
  (current = "DRAFT" ∧ target = "SUBMITTED") ∨
  (current = "SUBMITTED" ∧ target = "UNDER_CALCULATION") ∨
  (current = "SUBMITTED" ∧ target = "DRAFT") ∨
  (current = "UNDER_CALCULATION" ∧ target = "PENDING_REVIEW") ∨
  (current = "UNDER_CALCULATION" ∧ target = "SUBMITTED") ∨
  (current = "PENDING_REVIEW" ∧ target = "APPROVED") ∨
  (current = "PENDING_REVIEW" ∧ target = "REJECTED") ∨
  (current = "REJECTED" ∧ target = "SUBMITTED") ∨
  (current = "APPROVED" ∧ target = "LOCKED")

/-- The target lists stored in `STATE_TRANSITIONS` enumerate exactly the
spec's nine edges. -/
lemma mem_STATE_TRANSITIONS_iff (c t : String) :
    t ∈ STATE_TRANSITIONS c ↔ specEdge c t := by
  unfold STATE_TRANSITIONS specEdge
  split_ifs with h1 h2 h3 h4 h5 h6 h7 <;> subst_eqs <;> simp_all

/-- Claim C1 — for every pair of statuses and every role,
`WorkflowManager.can_transition` allows the transition exactly when the
pair is one of the nine edges of the spec's transition graph and the role
is one the spec authorizes for that edge; in particular every transition
out of `LOCKED` is refused for every target and role. -/
theorem c1_can_transition_matches_spec :
    (∀ current target role : String,
      (WorkflowManager.can_transition current target role).1 = true ↔
        specAllowed current target role) ∧
    (∀ target role : String,
      (WorkflowManager.can_transition "LOCKED" target role).1 = false) := by
  constructor
  · intro c t r
    unfold WorkflowManager.can_transition
    by_cases h1 : t ∈ STATE_TRANSITIONS c
    · rw [if_pos h1]
      by_cases h2 : r ∈ TRANSITION_PERMISSIONS (c, t)
      · rw [if_pos h2]
        simp only [true_iff]
        have he := (mem_STATE_TRANSITIONS_iff c t).mp h1
        unfold specEdge at he
        unfold specAllowed
        rcases he with h9 | h9 | h9 | h9 | h9 | h9 | h9 | h9 | h9 <;>
          obtain ⟨rfl, rfl⟩ := h9 <;>
          simp_all [TRANSITION_PERMISSIONS]
      · rw [if_neg h2]
        simp only [Bool.false_eq_true, false_iff]
        intro hs
        apply h2
        unfold specAllowed at hs
        rcases hs with h9 | h9 | h9 | h9 | h9 | h9 | h9 | h9 | h9 <;>
          obtain ⟨rfl, rfl, h⟩ := h9 <;>
          simp_all [TRANSITION_PERMISSIONS]
    · rw [if_neg h1]
      simp only [Bool.false_eq_true, false_iff]
      intro hs
      apply h1
      rw [mem_STATE_TRANSITIONS_iff]
      unfold specAllowed at hs
      unfold specEdge
      rcases hs with h9 | h9 | h9 | h9 | h9 | h9 | h9 | h9 | h9 <;>
        obtain ⟨rfl, rfl, -⟩ := h9 <;> simp
  · intro t r
    simp [WorkflowManager.can_transition, STATE_TRANSITIONS]

/-- A concrete project row used to instantiate the workflow theorems. -/
def sampleProject : Project :=
  { id := 1, project_name := "P", organization_name := "O",
    reporting_year := 2024, status := "DRAFT", created_by := 2,
    updated_at := 0, submitted_at := none, calculated_at := none,
    reviewed_at := none, approved_at := none, locked_at := none,
    total_scope1 := 5, total_scope2 := 6, total_scope3 := 7,
    total_emissions := 18 }

/-- A rational whose numerator and denominator pass the 28-digit test is
unchanged by the context rounding (evaluation helper: the numerator and
denominator are supplied so the test becomes an integer computation). -/
lemma fits28_eval (q : ℚ) (n : ℤ) (d : ℕ) (hn : q.num = n)
    (hd : q.den = d) (h : fits28nd n d = true) : fits28 q = true := by
  unfold fits28
  rw [hn, hd]
  exact h

/-- A rational within the 28-digit precision is a fixed point of the
context rounding. -/
lemma roundSig28_eq_self (q : ℚ) (h : fits28 q = true) :
    roundSig28 q = q := by
  unfold roundSig28
  rw [if_pos h]

/-- Combined evaluation form of `roundSig28_eq_self`. -/
lemma roundSig28_eval_self (q : ℚ) (n : ℤ) (d : ℕ) (hn : q.num = n)
    (hd : q.den = d) (h : fits28nd n d = true) : roundSig28 q = q :=
  roundSig28_eq_self q (fits28_eval q n d hn hd h)

/-- Binding a successful decimal step in the emission pipeline. -/
lemma ok_bind (d : Dec) (f : Dec → Except String CalcResult) :
    (Except.ok d >>= f) = f d := rfl

/-- Binding a failed decimal step propagates the failure through the
emission pipeline. -/
lemma error_bind (m : String) (f : Dec → Except String CalcResult) :
    (Except.error m >>= f) = Except.error m := rfl

/-- A successful bound pipeline step came from a successful operand. -/
lemma bind_ok_elim {e : Except String Dec}
    {f : Dec → Except String CalcResult} {r : CalcResult}
    (h : (e >>= f) = .ok r) : ∃ d, e = .ok d ∧ f d = .ok r := by
  cases e with
  | ok d => exact ⟨d, rfl, h⟩
  | error m => exact Except.noConfusion h

/-- Evaluation of `calculate_emissions` on four finite numeric
arguments: the multiplication chain computes the context-rounded product
`mulChain`, division by `1000` is exact, and the final quantize either
returns the half-up 4-decimal rounding or signals when its coefficient
exceeds the 28-digit precision. -/
lemma calculate_emissions_num (a ef g uc : ℚ) :
    FormulaEngine.calculate_emissions (.num a) (.num ef) (.num g)
        (.num uc) =
      if (rhu4Int (mulChain a ef g uc / 1000)).natAbs < 10 ^ 28 then
        .ok { activity_data := .fin a, emission_factor := .fin ef,
              gwp := .fin g, unit_conversion := .fin uc,
              emissions_kg := .fin (mulChain a ef g uc),
              emissions_tco2e :=
                .fin (roundHalfUp4 (mulChain a ef g uc / 1000)) }
      else .error "InvalidOperation: quantize result exceeds 28 digits" := by
  unfold FormulaEngine.calculate_emissions mulChain
  simp only [toDecimal, ok_bind, Dec.mul, Dec.div1000, Dec.quantize4,
    quantize4Q]
  by_cases hc : (rhu4Int
      (roundSig28 (roundSig28 (roundSig28 (a * ef) * g) * uc) /
        1000)).natAbs < 10 ^ 28
  · rw [if_pos hc, if_pos hc]
    rfl
  · rw [if_neg hc, if_neg hc]
    rfl

/-- `roundHalfUp4` leaves a rational with at most four decimal places
unchanged. -/
lemma roundHalfUp4_eq_self (q : ℚ) (hq : (10000 * q).den = 1) :
    roundHalfUp4 q = q := by
  rw [Rat.den_eq_one_iff] at hq
  unfold roundHalfUp4 rhu4Int
  split_ifs with h
  · rw [show q * 10000 + 1 / 2 = ((10000 * q).num : ℚ) + 1 / 2 by
      rw [hq]; ring]
    rw [Int.floor_int_add, show ⌊(1 : ℚ) / 2⌋ = 0 by norm_num]
    push_cast
    rw [hq]
    ring
  · rw [show -q * 10000 + 1 / 2 = ((-(10000 * q).num : ℤ) : ℚ) + 1 / 2 by
      push_cast
      rw [hq]; ring]
    rw [Int.floor_int_add, show ⌊(1 : ℚ) / 2⌋ = 0 by norm_num]
    push_cast
    rw [hq]
    ring

/-- Counterexample to C4: the valid input `(1e30, 1.0, 1.0, 1.0)` does
not produce a result at all — the 4-decimal quantize of `1e27` would
need a 32-digit coefficient, so the trapped `InvalidOperation` makes
`calculate_emissions` raise `ValueError` instead of returning the
product. -/
theorem c4_quantize_overflow_counterexample :
    FormulaEngine.calculate_emissions (.num (10 ^ 30)) (.num 1) (.num 1)
        (.num 1) =
      .error "InvalidOperation: quantize result exceeds 28 digits" := by
  have hfix : roundSig28 ((10 : ℚ) ^ 30) = 10 ^ 30 :=
    roundSig28_eval_self _ (10 ^ 30) 1 (by norm_num) (by norm_num)
      (by decide)
  have hm : mulChain (10 ^ 30) 1 1 1 = 10 ^ 30 := by
    unfold mulChain
    rw [mul_one, mul_one, mul_one, hfix, hfix, hfix]
  have hq : rhu4Int ((10 : ℚ) ^ 30 / 1000) = 10 ^ 31 := by
    norm_num [rhu4Int]
  rw [calculate_emissions_num, hm, hq, if_neg (by decide)]

/-- Claim C4 (amended) — for valid (finite, non-negative) inputs whose
intermediate products are unchanged by the 28-significant-digit context
rounding and whose 4-decimal quantization fits the precision,
`calculate_emissions` returns exactly
`emissions_kg = activity_data × emission_factor × gwp × unit_conversion`
and `emissions_tco2e = emissions_kg / 1000` rounded half-up to 4 decimal
places; in particular `calculate_emissions(100, 2.68, 1.0, 1.0)` yields
`emissions_kg = 268` and `emissions_tco2e = 0.268`.  Outside that range
the context rounds the product and the quantize step raises. -/
theorem c4_calculate_emissions_formula :
    (∀ a ef g uc : ℚ, 0 ≤ a → 0 ≤ ef → 0 ≤ g → 0 ≤ uc →
      roundSig28 (a * ef) = a * ef →
      roundSig28 (a * ef * g) = a * ef * g →
      roundSig28 (a * ef * g * uc) = a * ef * g * uc →
      (rhu4Int (a * ef * g * uc / 1000)).natAbs < 10 ^ 28 →
      FormulaEngine.calculate_emissions (.num a) (.num ef) (.num g)
          (.num uc) =
        .ok { activity_data := .fin a, emission_factor := .fin ef,
              gwp := .fin g, unit_conversion := .fin uc,
              emissions_kg := .fin (a * ef * g * uc),
              emissions_tco2e :=
                .fin (roundHalfUp4 (a * ef * g * uc / 1000)) }) ∧
    FormulaEngine.calculate_emissions (.num 100) (.num (268 / 100))
        (.num 1) (.num 1) =
      .ok { activity_data := .fin 100,
            emission_factor := .fin (268 / 100), gwp := .fin 1,
            unit_conversion := .fin 1, emissions_kg := .fin 268,
            emissions_tco2e := .fin (268 / 1000) } := by
  have part1 : ∀ a ef g uc : ℚ, 0 ≤ a → 0 ≤ ef → 0 ≤ g → 0 ≤ uc →
      roundSig28 (a * ef) = a * ef →
      roundSig28 (a * ef * g) = a * ef * g →
      roundSig28 (a * ef * g * uc) = a * ef * g * uc →
      (rhu4Int (a * ef * g * uc / 1000)).natAbs < 10 ^ 28 →
      FormulaEngine.calculate_emissions (.num a) (.num ef) (.num g)
          (.num uc) =
        .ok { activity_data := .fin a, emission_factor := .fin ef,
              gwp := .fin g, unit_conversion := .fin uc,
              emissions_kg := .fin (a * ef * g * uc),
              emissions_tco2e :=
                .fin (roundHalfUp4 (a * ef * g * uc / 1000)) } := by
    intro a ef g uc _ _ _ _ h1 h2 h3 h4
    have hchain : mulChain a ef g uc = a * ef * g * uc := by
      unfold mulChain
      rw [h1, h2, h3]
    rw [calculate_emissions_num, hchain, if_pos h4]
  refine ⟨part1, ?_⟩
  have hfix : roundSig28 (268 : ℚ) = 268 :=
    roundSig28_eval_self _ 268 1 (by norm_num) (by norm_num) (by decide)
  have hm : mulChain 100 (268 / 100) 1 1 = 268 := by
    unfold mulChain
    rw [mul_one, mul_one,
      show (100 * (268 / 100) : ℚ) = 268 from by norm_num, hfix, hfix,
      hfix]
  rw [calculate_emissions_num, hm]
  norm_num [roundHalfUp4, rhu4Int]

/-- Witness for C4: the amended universal conjunct applied at the spec's
own example `(100, 2.68, 1.0, 1.0)`. -/
theorem c4_calculate_emissions_formula_witness :
    FormulaEngine.calculate_emissions (.num 100) (.num (268 / 100))
        (.num 1) (.num 1) =
      .ok { activity_data := .fin 100,
            emission_factor := .fin (268 / 100), gwp := .fin 1,
            unit_conversion := .fin 1,
            emissions_kg := .fin (100 * (268 / 100) * 1 * 1),
            emissions_tco2e :=
              .fin (roundHalfUp4 (100 * (268 / 100) * 1 * 1 / 1000)) } := by
  have e1 : (100 * (268 / 100) : ℚ) = 268 := by norm_num
  have hfix : roundSig28 (268 : ℚ) = 268 :=
    roundSig28_eval_self _ 268 1 (by norm_num) (by norm_num) (by decide)
  exact c4_calculate_emissions_formula.1 100 (268 / 100) 1 1
    (by norm_num) (by norm_num) (by norm_num) (by norm_num)
    (by rw [e1, hfix]) (by rw [mul_one, e1, hfix])
    (by rw [mul_one, mul_one, e1, hfix])
    (by rw [mul_one, mul_one, e1]; norm_num [rhu4Int])

/-- Sample database state: one `DRAFT` project with a single activity-data
row of 100 units. -/
def sampleDB : DB :=
  { project := sampleProject, audit_logs := [], reviews := [],
    project_data :=
      [{ id := 10, project_id := 1, criteria_id := 4,
         activity_data := 100 }],
    calculations := [] }

/-- Counterexample to C2: `calculate_emissions(1, 1.23456, 1.0, 1.0)`
exposes `emissions_kg = 1.23456` but `emissions_tco2e = 0.0012` (the
4-decimal rounding of `0.00123456`), so the exposed `emissions_tco2e`
differs from `emissions_kg / 1000`. -/
theorem c2_tco2e_exact_counterexample :
    FormulaEngine.calculate_emissions (.num 1) (.num (123456 / 100000))
        (.num 1) (.num 1) =
      .ok { activity_data := .fin 1,
            emission_factor := .fin (123456 / 100000), gwp := .fin 1,
            unit_conversion := .fin 1,
            emissions_kg := .fin (123456 / 100000),
            emissions_tco2e := .fin (12 / 10000) } ∧
    (12 : ℚ) / 10000 ≠ (123456 / 100000 : ℚ) / 1000 := by
  constructor
  · have hn : ((123456 : ℚ) / 100000).num = 3858 := by norm_num
    have hd : ((123456 : ℚ) / 100000).den = 3125 := by norm_num
    have hfix : roundSig28 ((123456 : ℚ) / 100000) = 123456 / 100000 :=
      roundSig28_eval_self _ _ _ hn hd (by decide)
    have hm : mulChain 1 (123456 / 100000) 1 1 = 123456 / 100000 := by
      unfold mulChain
      rw [mul_one, mul_one, one_mul, hfix, hfix, hfix]
    rw [calculate_emissions_num, hm]
    norm_num [roundHalfUp4, rhu4Int]
  · norm_num

set_option maxHeartbeats 1000000 in
/-- Claim C2 (amended) — every calculation exposed by
`FormulaEngine.calculate_emissions` satisfies
`emissions_tco2e = quantize4(emissions_kg / 1000)` (the half-up
4-decimal rounding), which equals `emissions_kg / 1000` exactly
precisely when that quotient has at most 4 decimal places; the row
persisted by `GHGAppAgent.transform_data` satisfies
`emissions_tco2e = emissions_kg / 1000` exactly (its float arithmetic is
modelled as exact rationals). -/
theorem c2_tco2e_relation :
    (∀ (w x y z : PyNum) (r : CalcResult),
      FormulaEngine.calculate_emissions w x y z = .ok r →
      Dec.quantize4 (r.emissions_kg.div1000) = .ok r.emissions_tco2e) ∧
    (∀ q : ℚ, (10000 * q).den = 1 → roundHalfUp4 q = q) ∧
    (∀ (now : ℕ) (db : DB) (pid pdid : ℕ) (ef : ℚ)
      (src scope cat : String) (uid : ℕ) (gwp uc : ℚ)
      (notes : Option String) (c : Calculation),
      (GHGAppAgent.transform_data now db pid pdid ef src scope cat uid
          gwp uc notes).2 = .ok c →
      c.emissions_tco2e = c.emissions_kg / 1000) := by
  refine ⟨?_, roundHalfUp4_eq_self, ?_⟩
  · intro w x y z r h
    unfold FormulaEngine.calculate_emissions at h
    obtain ⟨ad, -, h⟩ := bind_ok_elim h
    obtain ⟨ef2, -, h⟩ := bind_ok_elim h
    obtain ⟨g2, -, h⟩ := bind_ok_elim h
    obtain ⟨uc2, -, h⟩ := bind_ok_elim h
    obtain ⟨p1, -, h⟩ := bind_ok_elim h
    obtain ⟨p2, -, h⟩ := bind_ok_elim h
    obtain ⟨kg, -, h⟩ := bind_ok_elim h
    obtain ⟨t, ht, h⟩ := bind_ok_elim h
    rw [← Except.ok.inj h]
    exact ht
  · intro now db pid pdid ef src scope cat uid gwp uc notes c h
    unfold GHGAppAgent.transform_data at h
    split_ifs at h <;> try exact Except.noConfusion h
    split at h <;> try exact Except.noConfusion h
    split at h <;> try exact Except.noConfusion h
    split_ifs at h <;> try exact Except.noConfusion h
    dsimp only at h
    rw [Except.ok.injEq] at h
    rw [← h]

/-- Witness for C2: applying the rounding identity at `q = 0.268` and the
`transform_data` conjunct at a concrete call on `sampleDB`. -/
theorem c2_tco2e_relation_witness :
    roundHalfUp4 (268 / 1000) = 268 / 1000 ∧
    (268 / 1000 : ℚ) = (268 : ℚ) / 1000 :=
  ⟨c2_tco2e_relation.2.1 (268 / 1000) (by norm_num),
   c2_tco2e_relation.2.2 7 sampleDB 1 10 (268 / 100) "EF" "Scope 1"
     "Fuel" 3 1 1 none
     { project_id := 1, criteria_id := 4, project_data_id := 10,
       activity_data := 100, emission_factor := 268 / 100,
       emission_factor_source := "EF", gwp := 1, unit_conversion := 1,
       emissions_kg := 268, emissions_tco2e := 268 / 1000,
       scope := "Scope 1", category := "Fuel", calculated_by := 3,
       calculated_at := 7, notes := none }
     (by
       have h1 : pyStrip "EF" = "EF" := by decide
       have h2 : pyStrip "Fuel" = "Fuel" := by decide
       have h3 : ¬ ("EF" : String) = "" := by decide
       have h4 : ¬ ("Fuel" : String) = "" := by decide
       norm_num [GHGAppAgent.transform_data,
         GHGAppAgent.get_project_or_raise, GHGAppAgent.VALID_SCOPES,
         sampleDB, sampleProject, List.find?, h1, h2, h3, h4])⟩

/-- Input classification: a finite number or an infinity (what
`Decimal(str(x))` accepts apart from NaN and non-numeric text). -/
def PyNum.numOrInf : PyNum → Bool
  | .num _ => true
  | .pinf => true
  | .ninf => true
  | .nan => false
  | .nonNumeric => false

/-- Input classification: an infinite float. -/
def PyNum.infinite : PyNum → Bool
  | .pinf => true
  | .ninf => true
  | _ => false

/-- Input classification: a finite number or a NaN. -/
def PyNum.numOrNan : PyNum → Bool
  | .num _ => true
  | .nan => true
  | _ => false

/-- Input classification: a NaN float. -/
def PyNum.nanP : PyNum → Bool
  | .nan => true
  | _ => false

/-- Decimal classification: finite or infinite (not NaN). -/
def Dec.finOrInf : Dec → Bool
  | .fin _ => true
  | .pinf => true
  | .ninf => true
  | .nan => false

/-- Decimal classification: an infinity. -/
def Dec.isInf : Dec → Bool
  | .pinf => true
  | .ninf => true
  | _ => false

/-- Decimal classification: finite or NaN. -/
def Dec.finOrNan : Dec → Bool
  | .fin _ => true
  | .nan => true
  | _ => false

/-- Decimal classification: a NaN. -/
def Dec.isNanB : Dec → Bool
  | .nan => true
  | _ => false

/-- Converting a finite-or-infinite input always succeeds, preserving the
infinity classification. -/
lemma toDecimal_numOrInf (w : PyNum) (h : w.numOrInf = true) :
    ∃ d, toDecimal w = .ok d ∧ d.finOrInf = true ∧
      d.isInf = w.infinite := by
  cases w <;> simp_all [toDecimal, PyNum.numOrInf, PyNum.infinite,
    Dec.finOrInf, Dec.isInf]

/-- Converting a finite-or-NaN input always succeeds, preserving the NaN
classification. -/
lemma toDecimal_numOrNan (w : PyNum) (h : w.numOrNan = true) :
    ∃ d, toDecimal w = .ok d ∧ d.finOrNan = true ∧
      d.isNanB = w.nanP := by
  cases w <;> simp_all [toDecimal, PyNum.numOrNan, PyNum.nanP,
    Dec.finOrNan, Dec.isNanB]

/-- Multiplying finite-or-infinite decimals either signals (only possible
through `0 × Infinity`) or yields a finite-or-infinite decimal that is
infinite exactly when an operand was. -/
lemma mul_finOrInf (a b : Dec) (ha : a.finOrInf = true)
    (hb : b.finOrInf = true) :
    (∃ m, a.mul b = .error m) ∨
    (∃ c, a.mul b = .ok c ∧ c.finOrInf = true ∧
      (c.isInf = (a.isInf || b.isInf))) := by
  cases a <;> cases b <;>
    simp_all [Dec.mul, Dec.finOrInf, Dec.isInf] <;>
    split_ifs <;> simp

/-- Multiplying finite-or-NaN decimals never signals and yields a
finite-or-NaN decimal that is NaN exactly when an operand was. -/
lemma mul_finOrNan (a b : Dec) (ha : a.finOrNan = true)
    (hb : b.finOrNan = true) :
    ∃ c, a.mul b = .ok c ∧ c.finOrNan = true ∧
      (c.isNanB = (a.isNanB || b.isNanB)) := by
  cases a <;> cases b <;>
    simp_all [Dec.mul, Dec.finOrNan, Dec.isNanB]

/-- Counterexample to C3: the all-negative input `(-1, 1, 1, 1)` is
accepted by `calculate_emissions`, which returns the signed result
`emissions_kg = -1`, `emissions_tco2e = -0.001` instead of raising. -/
theorem c3_negative_input_counterexample :
    FormulaEngine.calculate_emissions (.num (-1)) (.num 1) (.num 1)
        (.num 1) =
      .ok { activity_data := .fin (-1), emission_factor := .fin 1,
            gwp := .fin 1, unit_conversion := .fin 1,
            emissions_kg := .fin (-1),
            emissions_tco2e := .fin (-(1 / 1000)) } := by
  have hfix : roundSig28 (-1 : ℚ) = -1 :=
    roundSig28_eval_self _ (-1) 1 (by norm_num) (by norm_num) (by decide)
  have hm : mulChain (-1) 1 1 1 = -1 := by
    unfold mulChain
    rw [mul_one, mul_one, mul_one, hfix, hfix, hfix]
  rw [calculate_emissions_num, hm]
  norm_num [roundHalfUp4, rhu4Int]

/-- Claim C3 (amended) — `calculate_emissions` performs no sign check: a
finite numeric input tuple succeeds exactly when the final 4-decimal
quantize of the context-rounded product over `1000` fits the 28-digit
precision, regardless of sign; it raises for non-numeric inputs and for
tuples of numbers and infinities containing at least one infinity, while
NaN inputs among numbers propagate quietly to a NaN result instead of
raising. -/
theorem c3_error_characterization :
    (∀ a ef g uc : ℚ,
      (FormulaEngine.calculate_emissions (.num a) (.num ef) (.num g)
          (.num uc)).isOk = true ↔
        (rhu4Int (mulChain a ef g uc / 1000)).natAbs < 10 ^ 28) ∧
    (∀ w x y z : PyNum,
      (w = .nonNumeric ∨ x = .nonNumeric ∨ y = .nonNumeric ∨
        z = .nonNumeric) →
      (FormulaEngine.calculate_emissions w x y z).isOk = false) ∧
    (∀ w x y z : PyNum, w.numOrInf = true → x.numOrInf = true →
      y.numOrInf = true → z.numOrInf = true →
      (w.infinite = true ∨ x.infinite = true ∨ y.infinite = true ∨
        z.infinite = true) →
      (FormulaEngine.calculate_emissions w x y z).isOk = false) ∧
    (∀ w x y z : PyNum, w.numOrNan = true → x.numOrNan = true →
      y.numOrNan = true → z.numOrNan = true →
      (w.nanP = true ∨ x.nanP = true ∨ y.nanP = true ∨ z.nanP = true) →
      ∃ r, FormulaEngine.calculate_emissions w x y z = .ok r ∧
        r.emissions_tco2e = .nan) := by
  refine ⟨fun a ef g uc => ?_, fun w x y z h => ?_,
    fun w x y z hw hx hy hz hinf => ?_,
    fun w x y z hw hx hy hz hnan => ?_⟩
  · rw [calculate_emissions_num]
    by_cases hc : (rhu4Int (mulChain a ef g uc / 1000)).natAbs < 10 ^ 28
    · rw [if_pos hc]
      exact ⟨fun _ => hc, fun _ => rfl⟩
    · rw [if_neg hc]
      exact ⟨fun h => absurd h (by decide), fun h => absurd h hc⟩
  · rcases h with rfl | rfl | rfl | rfl
    · rfl
    · cases w <;> rfl
    · cases w <;> cases x <;> rfl
    · cases w <;> cases x <;> cases y <;> rfl
  · obtain ⟨dw, hdw, hdw1, hdw2⟩ := toDecimal_numOrInf w hw
    obtain ⟨dx, hdx, hdx1, hdx2⟩ := toDecimal_numOrInf x hx
    obtain ⟨dy, hdy, hdy1, hdy2⟩ := toDecimal_numOrInf y hy
    obtain ⟨dz, hdz, hdz1, hdz2⟩ := toDecimal_numOrInf z hz
    unfold FormulaEngine.calculate_emissions
    rw [hdw, ok_bind, hdx, ok_bind, hdy, ok_bind, hdz, ok_bind]
    rcases mul_finOrInf dw dx hdw1 hdx1 with ⟨m, hm⟩ | ⟨p1, hp1, hp11, hp12⟩
    · rw [hm, error_bind]; rfl
    · rw [hp1, ok_bind]
      rcases mul_finOrInf p1 dy hp11 hdy1 with ⟨m, hm⟩ |
        ⟨p2, hp2, hp21, hp22⟩
      · rw [hm, error_bind]; rfl
      · rw [hp2, ok_bind]
        rcases mul_finOrInf p2 dz hp21 hdz1 with ⟨m, hm⟩ |
          ⟨kg, hkg, hkg1, hkg2⟩
        · rw [hm, error_bind]; rfl
        · rw [hkg, ok_bind]
          have : kg.isInf = true := by
            rw [hkg2, hp22, hp12, hdw2, hdx2, hdy2, hdz2]
            rcases hinf with h | h | h | h <;> simp [h]
          cases kg <;> simp_all [Dec.isInf, Dec.finOrInf] <;> rfl
  · obtain ⟨dw, hdw, hdw1, hdw2⟩ := toDecimal_numOrNan w hw
    obtain ⟨dx, hdx, hdx1, hdx2⟩ := toDecimal_numOrNan x hx
    obtain ⟨dy, hdy, hdy1, hdy2⟩ := toDecimal_numOrNan y hy
    obtain ⟨dz, hdz, hdz1, hdz2⟩ := toDecimal_numOrNan z hz
    unfold FormulaEngine.calculate_emissions
    rw [hdw, ok_bind, hdx, ok_bind, hdy, ok_bind, hdz, ok_bind]
    obtain ⟨p1, hp1, hp11, hp12⟩ := mul_finOrNan dw dx hdw1 hdx1
    rw [hp1, ok_bind]
    obtain ⟨p2, hp2, hp21, hp22⟩ := mul_finOrNan p1 dy hp11 hdy1
    rw [hp2, ok_bind]
    obtain ⟨kg, hkg, hkg1, hkg2⟩ := mul_finOrNan p2 dz hp21 hdz1
    rw [hkg, ok_bind]
    have : kg.isNanB = true := by
      rw [hkg2, hp22, hp12, hdw2, hdx2, hdy2, hdz2]
      rcases hnan with h | h | h | h <;> simp [h]
    have hkgnan : kg = .nan := by
      cases kg <;> simp_all [Dec.isNanB]
    subst hkgnan
    exact ⟨_, rfl, rfl⟩

/-- Witness for C3: a negative numeric tuple is accepted, a non-numeric
first argument raises, an infinite first argument raises, and a NaN
first argument is accepted with a NaN result. -/
theorem c3_error_characterization_witness :
    (FormulaEngine.calculate_emissions (.num (-5)) (.num 2) (.num 1)
      (.num 1)).isOk = true ∧
    (FormulaEngine.calculate_emissions .nonNumeric (.num 1) (.num 1)
      (.num 1)).isOk = false ∧
    (FormulaEngine.calculate_emissions .pinf (.num 1) (.num 1)
      (.num 1)).isOk = false ∧
    (∃ r, FormulaEngine.calculate_emissions .nan (.num 1) (.num 1)
      (.num 1) = .ok r ∧ r.emissions_tco2e = .nan) := by
  refine ⟨(c3_error_characterization.1 (-5) 2 1 1).mpr ?_,
    c3_error_characterization.2.1 _ _ _ _ (Or.inl rfl),
    c3_error_characterization.2.2.1 _ _ _ _ rfl rfl rfl rfl (Or.inl rfl),
    c3_error_characterization.2.2.2 _ _ _ _ rfl rfl rfl rfl (Or.inl rfl)⟩
  have hfix : roundSig28 (-10 : ℚ) = -10 :=
    roundSig28_eval_self _ (-10) 1 (by norm_num) (by norm_num) (by decide)
  have hm : mulChain (-5) 2 1 1 = -10 := by
    unfold mulChain
    rw [mul_one, mul_one, show ((-5 : ℚ) * 2) = -10 from by norm_num,
      hfix, hfix, hfix]
  rw [hm]
  norm_num [rhu4Int]

/-- Claim C5 — every successful `WorkflowManager.transition` call appends
exactly one new audit entry, whose `from_status` is the project's status
before the call and whose `to_status` is the requested target; a call
rejected by `can_transition` raises `ValueError` with the check's message
(in the source this happens before any field of the project is assigned
and before any audit row is staged, so the store is untouched). -/
theorem c5_transition_audit_entry (now : ℕ) (p : Project)
    (logs : List AuditLog) (new_status : String) (user_id : ℕ)
    (user_role : String) (comments reason_code : Option String) :
    (∀ p' logs',
      WorkflowManager.transition now p logs new_status user_id user_role
          comments reason_code = .ok (p', logs') →
      logs' = logs ++
        [{ project_id := p.id, action := new_status,
           from_status := some p.status, to_status := new_status,
           user_id := user_id, user_role := user_role,
           comments := comments, reason_code := reason_code }]) ∧
    ((WorkflowManager.can_transition p.status new_status user_role).1 =
        false →
      WorkflowManager.transition now p logs new_status user_id user_role
          comments reason_code =
        .error
          (WorkflowManager.can_transition p.status new_status user_role).2) := by
  constructor
  · intro p' logs' h
    unfold WorkflowManager.transition WorkflowManager.log_transition at h
    by_cases hc :
        (WorkflowManager.can_transition p.status new_status user_role).1 =
          false
    · rw [if_pos hc] at h
      exact absurd h (by simp)
    · rw [if_neg hc] at h
      rw [Except.ok.injEq, Prod.mk.injEq] at h
      obtain ⟨-, h2⟩ := h
      rw [← h2]
      split_ifs <;> rfl
  · intro hc
    unfold WorkflowManager.transition
    rw [if_pos hc]

/-- Witness for C5 at a concrete project: the `DRAFT → SUBMITTED`
transition by an `L1` user appends the expected audit row, and the
illegal `DRAFT → LOCKED` attempt returns the check's error. -/
theorem c5_transition_audit_entry_witness :
    ([{ project_id := 1, action := "SUBMITTED",
         from_status := some "DRAFT",
         to_status := "SUBMITTED", user_id := 3, user_role := "L1",
         comments := none, reason_code := none }] : List AuditLog) =
      [] ++
        [{ project_id := sampleProject.id, action := "SUBMITTED",
           from_status := some sampleProject.status,
           to_status := "SUBMITTED",
           user_id := 3, user_role := "L1", comments := none,
           reason_code := none }] ∧
    WorkflowManager.transition 7 sampleProject [] "LOCKED" 3 "L4" none
        none =
      .error
        (WorkflowManager.can_transition sampleProject.status "LOCKED"
          "L4").2 :=
  ⟨(c5_transition_audit_entry 7 sampleProject [] "SUBMITTED" 3 "L1" none
      none).1
    { sampleProject with
        status := "SUBMITTED", updated_at := 7, submitted_at := some 7 }
    [{ project_id := 1, action := "SUBMITTED",
        from_status := some "DRAFT",
        to_status := "SUBMITTED", user_id := 3, user_role := "L1",
        comments := none, reason_code := none }] (by decide),
   (c5_transition_audit_entry 7 sampleProject [] "LOCKED" 3 "L4" none
      none).2 (by decide)⟩

/-- Claim C10 — a successful transition changes only the project's status,
its `updated_at`, and the milestone timestamp(s) of the target state
(`submitted_at` for SUBMITTED, `calculated_at` for PENDING_REVIEW,
`reviewed_at` and `approved_at` for APPROVED, `locked_at` for LOCKED),
besides appending the audit row; the identifier, name, organization,
reporting year, creator and all four emission totals are unchanged. -/
theorem c10_transition_frame (now : ℕ) (p : Project) (logs : List AuditLog)
    (new_status : String) (user_id : ℕ) (user_role : String)
    (comments reason_code : Option String) (p' : Project)
    (logs' : List AuditLog)
    (h : WorkflowManager.transition now p logs new_status user_id user_role
        comments reason_code = .ok (p', logs')) :
    p'.id = p.id ∧ p'.project_name = p.project_name ∧
    p'.organization_name = p.organization_name ∧
    p'.reporting_year = p.reporting_year ∧ p'.created_by = p.created_by ∧
    p'.total_scope1 = p.total_scope1 ∧ p'.total_scope2 = p.total_scope2 ∧
    p'.total_scope3 = p.total_scope3 ∧
    p'.total_emissions = p.total_emissions ∧
    p'.status = new_status ∧ p'.updated_at = now ∧
    p'.submitted_at =
      (if new_status = "SUBMITTED" then some now else p.submitted_at) ∧
    p'.calculated_at =
      (if new_status = "PENDING_REVIEW" then some now
       else p.calculated_at) ∧
    p'.reviewed_at =
      (if new_status = "APPROVED" then some now else p.reviewed_at) ∧
    p'.approved_at =
      (if new_status = "APPROVED" then some now else p.approved_at) ∧
    p'.locked_at =
      (if new_status = "LOCKED" then some now else p.locked_at) ∧
    logs' = logs ++
      [{ project_id := p.id, action := new_status,
         from_status := some p.status, to_status := new_status,
         user_id := user_id, user_role := user_role,
         comments := comments, reason_code := reason_code }] := by
  unfold WorkflowManager.transition WorkflowManager.log_transition at h
  by_cases hc :
      (WorkflowManager.can_transition p.status new_status user_role).1 =
        false
  · rw [if_pos hc] at h
    exact absurd h (by simp)
  · rw [if_neg hc] at h
    rw [Except.ok.injEq, Prod.mk.injEq] at h
    obtain ⟨h1, h2⟩ := h
    rw [← h1, ← h2]
    split_ifs <;> simp_all

/-- Witness for C10: after the concrete `DRAFT → SUBMITTED` transition,
the grand emission total is untouched. -/
theorem c10_transition_frame_witness :
    ({ sampleProject with
         status := "SUBMITTED", updated_at := 7,
         submitted_at := some 7 } : Project).total_emissions =
      sampleProject.total_emissions := by
  obtain ⟨-, -, -, -, -, -, -, -, h, -⟩ :=
    c10_transition_frame 7 sampleProject [] "SUBMITTED" 3 "L1" none none
      { sampleProject with
          status := "SUBMITTED", updated_at := 7, submitted_at := some 7 }
      [{ project_id := 1, action := "SUBMITTED",
          from_status := some "DRAFT", to_status := "SUBMITTED",
          user_id := 3, user_role := "L1", comments := none,
          reason_code := none }] (by decide)
  exact h

/-- The exact-arithmetic loop body `aggStepExact` computes, for any
starting totals, the starting totals plus the per-scope sums of the list
(records whose scope is `"Total"` are counted twice in the grand total,
once by the scope bucket and once by the unconditional addition). -/
lemma aggStepExact_foldl (l : List FormulaEngine.CalcRecord)
    (a b c d : ℚ) :
    l.foldl FormulaEngine.aggStepExact (a, b, c, d) =
      (a + (l.map fun r =>
          if r.scopeD = "Scope 1" then r.tco2eD else 0).sum,
       b + (l.map fun r =>
          if r.scopeD = "Scope 2" then r.tco2eD else 0).sum,
       c + (l.map fun r =>
          if r.scopeD = "Scope 3" then r.tco2eD else 0).sum,
       d + (l.map fun r =>
          r.tco2eD +
            (if r.scopeD = "Total" then r.tco2eD else 0)).sum) := by
  induction l generalizing a b c d with
  | nil => simp
  | cons x l ih =>
    rw [List.foldl_cons, ih]
    unfold FormulaEngine.aggStepExact
    dsimp only
    split_ifs with h1 h2 h3 h4 <;> simp_all <;> ring_nf <;>
      simp [add_assoc]

/-- When every decimal addition performed on a record stays within the
28-digit precision, the rounding loop body agrees with the exact one. -/
lemma aggStep_eq_exact (t : ℚ × ℚ × ℚ × ℚ)
    (c : FormulaEngine.CalcRecord)
    (h : FormulaEngine.aggStepOk t c = true) :
    FormulaEngine.aggStep t c = FormulaEngine.aggStepExact t c := by
  unfold FormulaEngine.aggStep FormulaEngine.aggStepExact
  unfold FormulaEngine.aggStepOk at h
  dsimp only at h ⊢
  split_ifs at h ⊢ <;>
    first
      | (rw [Bool.and_eq_true] at h
         rw [roundSig28_eq_self _ h.1, roundSig28_eq_self _ h.2])
      | rw [roundSig28_eq_self _ h]

/-- When every addition performed while folding the list from totals `t`
is exact, the rounded fold agrees with the exact fold. -/
lemma aggExact_fold (l : List FormulaEngine.CalcRecord)
    (t : ℚ × ℚ × ℚ × ℚ) (h : FormulaEngine.aggExact t l = true) :
    l.foldl FormulaEngine.aggStep t =
      l.foldl FormulaEngine.aggStepExact t := by
  induction l generalizing t with
  | nil => rfl
  | cons c l ih =>
    unfold FormulaEngine.aggExact at h
    rw [Bool.and_eq_true] at h
    rw [List.foldl_cons, List.foldl_cons, aggStep_eq_exact t c h.1]
    exact ih (FormulaEngine.aggStepExact t c) h.2

/-- Evaluation of one loop iteration on a `"Scope 1"` record. -/
lemma aggStep_scope1 (t : ℚ × ℚ × ℚ × ℚ) (v : ℚ) :
    FormulaEngine.aggStep t ⟨some "Scope 1", some v⟩ =
      (roundSig28 (t.1 + v), t.2.1, t.2.2.1,
       roundSig28 (t.2.2.2 + v)) := by
  unfold FormulaEngine.aggStep
  dsimp only [FormulaEngine.CalcRecord.scopeD,
    FormulaEngine.CalcRecord.tco2eD, Option.getD_some]
  rw [if_pos rfl]

/-- Evaluation of the final quantize of a total. -/
lemma quantize4Q_eval (q r : ℚ) (n : ℤ) (h : rhu4Int q = n)
    (hlt : n.natAbs < 10 ^ 28) (hr : (n : ℚ) / 10000 = r) :
    quantize4Q q = .ok r := by
  unfold quantize4Q roundHalfUp4
  rw [h, if_pos hlt, hr]

/-- Binding a successfully quantized total in `aggregate_emissions`. -/
lemma okq_bind (a : ℚ)
    (f : ℚ → Except String FormulaEngine.AggregateResult) :
    (Except.ok a >>= f) = f a := rfl

/-- The context rounding in action: `10^28 + 1` needs 29 significant
digits, so the decimal addition rounds it half-even down to `10^28`. -/
lemma roundSig28_pow28_add_one :
    roundSig28 ((10 : ℚ) ^ 28 + 1) = 10 ^ 28 := by
  have hn : ((10 : ℚ) ^ 28 + 1).num = 10 ^ 28 + 1 := by norm_num
  have hd : ((10 : ℚ) ^ 28 + 1).den = 1 := by norm_num
  have hfit : ¬ fits28 ((10 : ℚ) ^ 28 + 1) = true := by
    unfold fits28
    rw [hn, hd]
    decide
  have he : decExp ((10 : ℚ) ^ 28 + 1) = 28 := by
    unfold decExp
    rw [hn, hd]
    decide
  unfold roundSig28
  rw [if_neg hfit]
  dsimp only
  rw [he, abs_of_pos (by positivity),
    show rhe (((10 : ℚ) ^ 28 + 1) * (10 : ℚ) ^ ((27 : ℤ) - 28)) = 10 ^ 27
      from by norm_num [rhe],
    if_neg (by norm_num : ¬ ((10 : ℚ) ^ 28 + 1 < 0))]
  norm_num

/-- Counterexample to C7: three `"Scope 1"` records of `1e28`, `1` and
`-1e28` aggregate to Scope 1 and grand totals of `0` in this order, but
to `1` with the last two records swapped: the decimal addition
`1e28 + 1` is rounded back to `1e28` by the 28-digit context, so the
fold is order-dependent. -/
theorem c7_order_dependence_counterexample :
    ([⟨some "Scope 1", some ((10 : ℚ) ^ 28)⟩,
      ⟨some "Scope 1", some 1⟩,
      ⟨some "Scope 1", some (-((10 : ℚ) ^ 28))⟩] :
        List FormulaEngine.CalcRecord).Perm
      [⟨some "Scope 1", some ((10 : ℚ) ^ 28)⟩,
       ⟨some "Scope 1", some (-((10 : ℚ) ^ 28))⟩,
       ⟨some "Scope 1", some 1⟩] ∧
    FormulaEngine.aggregate_emissions
        [⟨some "Scope 1", some ((10 : ℚ) ^ 28)⟩,
         ⟨some "Scope 1", some 1⟩,
         ⟨some "Scope 1", some (-((10 : ℚ) ^ 28))⟩] ≠
      FormulaEngine.aggregate_emissions
        [⟨some "Scope 1", some ((10 : ℚ) ^ 28)⟩,
         ⟨some "Scope 1", some (-((10 : ℚ) ^ 28))⟩,
         ⟨some "Scope 1", some 1⟩] := by
  have k0 : roundSig28 (0 : ℚ) = 0 :=
    roundSig28_eval_self _ 0 1 (by norm_num) (by norm_num) (by decide)
  have k1 : roundSig28 ((10 : ℚ) ^ 28) = 10 ^ 28 :=
    roundSig28_eval_self _ (10 ^ 28) 1 (by norm_num) (by norm_num)
      (by decide)
  have kone : roundSig28 (1 : ℚ) = 1 :=
    roundSig28_eval_self _ 1 1 (by norm_num) (by norm_num) (by decide)
  have sA : FormulaEngine.aggStep (0, 0, 0, 0)
      ⟨some "Scope 1", some ((10 : ℚ) ^ 28)⟩ =
      ((10 : ℚ) ^ 28, 0, 0, 10 ^ 28) := by
    rw [aggStep_scope1]
    dsimp only
    rw [zero_add, k1]
  have sB : FormulaEngine.aggStep ((10 : ℚ) ^ 28, 0, 0, 10 ^ 28)
      ⟨some "Scope 1", some 1⟩ = ((10 : ℚ) ^ 28, 0, 0, 10 ^ 28) := by
    rw [aggStep_scope1]
    dsimp only
    rw [roundSig28_pow28_add_one]
  have sC : FormulaEngine.aggStep ((10 : ℚ) ^ 28, 0, 0, 10 ^ 28)
      ⟨some "Scope 1", some (-((10 : ℚ) ^ 28))⟩ = (0, 0, 0, 0) := by
    rw [aggStep_scope1]
    dsimp only
    rw [show (10 : ℚ) ^ 28 + -((10 : ℚ) ^ 28) = 0 from by ring, k0]
  have sD : FormulaEngine.aggStep (0, 0, 0, 0)
      ⟨some "Scope 1", some 1⟩ = (1, 0, 0, 1) := by
    rw [aggStep_scope1]
    dsimp only
    rw [zero_add, kone]
  refine ⟨List.Perm.cons _ (List.Perm.swap _ _ _), ?_⟩
  unfold FormulaEngine.aggregate_emissions
  simp only [List.foldl_cons, List.foldl_nil]
  rw [sA, sB, sC, sD]
  dsimp only
  rw [quantize4Q_eval 0 0 0 (by norm_num [rhu4Int]) (by decide)
      (by norm_num),
    quantize4Q_eval 1 1 10000 (by norm_num [rhu4Int]) (by decide)
      (by norm_num)]
  simp only [okq_bind]
  intro hcontra
  have hrec := Except.ok.inj hcontra
  simp at hrec

/-- Claim C7 (amended) — `aggregate_emissions` is order-independent over
permutations as long as every decimal addition performed while folding
either list is exact, i.e. no running total outgrows the 28-digit
context precision; without this proviso the rounded decimal additions
are not associative, and a reordering can change the totals. -/
theorem c7_aggregate_emissions_perm
    (l1 l2 : List FormulaEngine.CalcRecord) (hp : l1.Perm l2)
    (h1 : FormulaEngine.aggExact (0, 0, 0, 0) l1 = true)
    (h2 : FormulaEngine.aggExact (0, 0, 0, 0) l2 = true) :
    FormulaEngine.aggregate_emissions l1 =
      FormulaEngine.aggregate_emissions l2 := by
  unfold FormulaEngine.aggregate_emissions
  rw [aggExact_fold l1 _ h1, aggExact_fold l2 _ h2, aggStepExact_foldl,
    aggStepExact_foldl, hp.length_eq, (hp.map _).sum_eq,
    (hp.map _).sum_eq, (hp.map _).sum_eq, (hp.map _).sum_eq]

/-- Witness for C7: swapping two small concrete records (all additions
exact) leaves the aggregate unchanged. -/
theorem c7_aggregate_emissions_perm_witness :
    FormulaEngine.aggregate_emissions
        [⟨some "Scope 1", some (1 / 2)⟩, ⟨some "Scope 2", some (1 / 4)⟩] =
      FormulaEngine.aggregate_emissions
        [⟨some "Scope 2", some (1 / 4)⟩, ⟨some "Scope 1", some (1 / 2)⟩] := by
  have f1 : fits28 ((2 : ℚ)⁻¹) = true :=
    fits28_eval _ 1 2 (by norm_num) (by norm_num) (by decide)
  have f2 : fits28 ((4 : ℚ)⁻¹) = true :=
    fits28_eval _ 1 4 (by norm_num) (by norm_num) (by decide)
  have f3 : fits28 ((2 : ℚ)⁻¹ + (4 : ℚ)⁻¹) = true :=
    fits28_eval _ 3 4 (by norm_num) (by norm_num) (by decide)
  have f4 : fits28 ((4 : ℚ)⁻¹ + (2 : ℚ)⁻¹) = true :=
    fits28_eval _ 3 4 (by norm_num) (by norm_num) (by decide)
  refine c7_aggregate_emissions_perm _ _ (List.Perm.swap _ _ _) ?_ ?_ <;>
    simp [FormulaEngine.aggExact, FormulaEngine.aggStepOk,
      FormulaEngine.aggStepExact, FormulaEngine.CalcRecord.scopeD,
      FormulaEngine.CalcRecord.tco2eD, f1, f2, f3, f4]

/-- Counterexample to C6: `transform_data` rejects `gwp = 0` with a
`ValidationError`, leaving the store untouched, although the claim says
`gwp = 0` is accepted. -/
theorem c6_gwp_zero_counterexample :
    GHGAppAgent.transform_data 7 sampleDB 1 10 1 "EF" "Scope 1" "Fuel" 3
        0 1 none =
      (sampleDB, .error (.validation "gwp must be positive")) := by
  unfold GHGAppAgent.transform_data
  norm_num

/-- Claim C6 (amended) — `transform_data` raises `ValidationError`
whenever `emission_factor ≤ 0`, and equally whenever `gwp ≤ 0` or
`unit_conversion ≤ 0` (so `gwp = 0` and `unit_conversion = 0` are
rejected, not accepted); with `emission_factor > 0`, `gwp > 0`,
`unit_conversion > 0`, a valid scope, non-blank factor source and
category, a positive project id resolving to the stored project, and a
resolvable data row of the project, the call succeeds. -/
theorem c6_transform_data_validation (now : ℕ) (db : DB)
    (pid pdid : ℕ) (ef : ℚ) (src scope cat : String) (uid : ℕ)
    (gwp uc : ℚ) (notes : Option String) :
    ((ef ≤ 0 ∨ gwp ≤ 0 ∨ uc ≤ 0) →
      ∃ m, GHGAppAgent.transform_data now db pid pdid ef src scope cat
          uid gwp uc notes = (db, .error (.validation m))) ∧
    (ef > 0 → gwp > 0 → uc > 0 → scope ∈ GHGAppAgent.VALID_SCOPES →
      ¬ pyStrip src = "" → ¬ pyStrip cat = "" → pid ≠ 0 →
      db.project.id = pid →
      ∀ pd : ProjectData,
        db.project_data.find? (fun r => r.id = pdid) = some pd →
        pd.project_id = pid →
        ∃ c, (GHGAppAgent.transform_data now db pid pdid ef src scope
            cat uid gwp uc notes).2 = .ok c) := by
  constructor
  · intro h
    unfold GHGAppAgent.transform_data
    rcases h with h | h | h
    · rw [if_pos (not_lt.mpr h)]
      exact ⟨_, rfl⟩
    · by_cases h1 : ¬ ef > 0
      · rw [if_pos h1]
        exact ⟨_, rfl⟩
      · rw [if_neg h1, if_pos (not_lt.mpr h)]
        exact ⟨_, rfl⟩
    · by_cases h1 : ¬ ef > 0
      · rw [if_pos h1]
        exact ⟨_, rfl⟩
      · rw [if_neg h1]
        by_cases h2 : ¬ gwp > 0
        · rw [if_pos h2]
          exact ⟨_, rfl⟩
        · rw [if_neg h2, if_pos (not_lt.mpr h)]
          exact ⟨_, rfl⟩
  · intro h1 h2 h3 h4 h5 h6 h0 h7 pd hfind h8
    unfold GHGAppAgent.transform_data
    have hget : GHGAppAgent.get_project_or_raise db pid =
        .ok db.project := by
      unfold GHGAppAgent.get_project_or_raise
      rw [if_neg h0, if_pos h7]
    rw [if_neg (not_not_intro h1), if_neg (not_not_intro h2),
      if_neg (not_not_intro h3), if_neg (not_not_intro h4), if_neg h5,
      if_neg h6, hget]
    dsimp only
    rw [hfind]
    dsimp only
    rw [if_neg (not_not_intro h8)]
    exact ⟨_, rfl⟩

/-- Witness for C6: the gwp = 0 call is rejected with a validation error
and the corresponding gwp = 1 call succeeds. -/
theorem c6_transform_data_validation_witness :
    (∃ m, GHGAppAgent.transform_data 7 sampleDB 1 10 1 "EF" "Scope 1"
        "Fuel" 3 0 1 none = (sampleDB, .error (.validation m))) ∧
    (∃ c, (GHGAppAgent.transform_data 7 sampleDB 1 10 1 "EF" "Scope 1"
        "Fuel" 3 1 1 none).2 = .ok c) :=
  ⟨(c6_transform_data_validation 7 sampleDB 1 10 1 "EF" "Scope 1" "Fuel"
      3 0 1 none).1 (Or.inr (Or.inl le_rfl)),
   (c6_transform_data_validation 7 sampleDB 1 10 1 "EF" "Scope 1" "Fuel"
      3 1 1 none).2 (by norm_num) (by norm_num) (by norm_num) (by decide)
     (by decide) (by decide) (by decide) (by decide)
     { id := 10, project_id := 1, criteria_id := 4,
       activity_data := 100 } (by decide) (by decide)⟩

/-- `create_review` passes its two input validations for any legal
`review_result`, but the `Review(...)` construction then always raises
`TypeError` (the model class has no `reviewer_id` or `review_result`
attribute), which the generic handler converts to `DatabaseError` after
rolling back: no review is ever persisted by this method. -/
lemma create_review_database_error (now : ℕ) (db : DB) (pid vid : ℕ)
    (res : String) (comments rc : Option String)
    (hres : res ∈ ["APPROVED", "REJECTED"])
    (hrc : ¬(res = "REJECTED" ∧ pyFalsy rc = true)) :
    GHGAppAgent.create_review now db pid vid res comments rc =
      (db, .error (.database "Failed to create review: TypeError")) := by
  unfold GHGAppAgent.create_review
  rw [if_neg (not_not_intro hres), if_neg hrc, if_neg (by decide)]

/-- Claim C8 — `reject_verification` raises `ValidationError`, before
creating any review or touching the store, whenever `comments` is blank
or `reason_code` is blank; `approve_verification` has no `reason_code`
parameter and accepts absent comments: on any positive project id it
never raises a `ValidationError` (the only validation it can fail is the
shared `_get_project_or_raise` guard on non-positive project ids). -/
theorem c8_review_validation :
    (∀ (now : ℕ) (db : DB) (pid vid : ℕ) (role rc c : String),
      (pyStrip c = "" ∨ pyStrip rc = "") →
      ∃ m, GHGAppAgent.reject_verification now db pid vid role rc c =
        (db, .error (.validation m))) ∧
    (∀ (now : ℕ) (db : DB) (pid vid : ℕ) (role : String)
      (comments : Option String) (m : String), pid ≠ 0 →
      (GHGAppAgent.approve_verification now db pid vid role comments).2 ≠
        .error (.validation m)) := by
  constructor
  · intro now db pid vid role rc c h
    unfold GHGAppAgent.reject_verification
    rcases h with h | h
    · rw [if_pos h]
      exact ⟨_, rfl⟩
    · by_cases h1 : pyStrip c = ""
      · rw [if_pos h1]
        exact ⟨_, rfl⟩
      · rw [if_neg h1, if_pos h]
        exact ⟨_, rfl⟩
  · intro now db pid vid role comments m hpid
    unfold GHGAppAgent.approve_verification GHGAppAgent.get_project_or_raise
    rw [if_neg hpid]
    split_ifs with h
    · dsimp only
      rw [create_review_database_error now db pid vid "APPROVED" comments
        none (by decide) (by decide)]
      simp
    · simp

/-- Witness for C8: blank comments are rejected on the concrete store,
and the concrete approval (which fails later, in `create_review`) is not
a validation failure. -/
theorem c8_review_validation_witness :
    (∃ m, GHGAppAgent.reject_verification 7 sampleDB 1 3 "L3" "RC1"
        " " = (sampleDB, .error (.validation m))) ∧
    (GHGAppAgent.approve_verification 7 sampleDB 1 3 "L3" none).2 ≠
      .error (.validation "Comments are required for rejection") :=
  ⟨c8_review_validation.1 7 sampleDB 1 3 "L3" "RC1" " "
      (Or.inl (by decide)),
   c8_review_validation.2 7 sampleDB 1 3 "L3" none _ (by decide)⟩

/-- C9 at its failing input — calling `approve_verification` (resp. a
well-formed `reject_verification`) on an existing project does not create
a review and then fail the status check: it fails already inside
`create_review` with `DatabaseError`, because `Review(...)` is passed the
keyword arguments `reviewer_id` and `review_result` that the mapped
`Review` class does not have; the store is returned unchanged (no review
row, no transition attempt, no `InvalidStateError`). -/
theorem c9_verification_fails_in_create_review :
    GHGAppAgent.approve_verification 7 sampleDB 1 3 "L3" (some "ok") =
      (sampleDB,
        .error (.database "Failed to create review: TypeError")) ∧
    GHGAppAgent.reject_verification 7 sampleDB 1 3 "L3" "RC1"
        "data is wrong" =
      (sampleDB,
        .error (.database "Failed to create review: TypeError")) := by
  constructor <;> decide


end GHG
